import Mathlib

/-!
Shallow embedding of the service-registry core of `go-tenant-service`
(`internal/domain` value types and the `ServiceRegistry` methods of
`internal/service`).  Timestamps (`time.Time`) are modelled as `Nat`
instants passed in explicitly (the Go code stamps `time.Now()`); the
zero `time.Time` of a never-stamped field is modelled as `Option Nat`
being `none`.  The in-memory maps (`healthStatus`, `loadBalanceIdx`)
are modelled as total functions from the composite string key, `none`
(resp. `0`) playing the role of an absent Go map entry.  Randomness
(`rand.Intn`) is modelled by passing the drawn value as an argument.
-/

/-- Model of `domain.ServiceEndpoint`: one network target. -/
structure ServiceEndpoint where
  url : String
  priority : Int
  weight : Int
  timeout : Int
  headers : List (String × String)
  isActive : Bool
deriving DecidableEq, Repr

/-- Model of `domain.HealthCheckConfig`: externally-executed health-check policy. -/
structure HealthCheckConfig where
  enabled : Bool
  path : String
  method : String
  interval : Int
  timeout : Int
  failThreshold : Int
deriving DecidableEq, Repr

/-- Model of `domain.ServiceConfig`: per-(tenant, serviceName) routing policy.
Audit fields (`metadata`, `createdAt`, `updatedAt`) and the Mongo `_id`
play no part in the resolution logic and are omitted. -/
structure ServiceConfig where
  tenantId : String
  serviceName : String
  primaryEndpoint : ServiceEndpoint
  fallbackChain : List ServiceEndpoint
  defaultServiceUrl : String
  healthCheck : HealthCheckConfig
  loadBalanceStrategy : String
  isActive : Bool
deriving DecidableEq, Repr

/-- Model of `domain.ServiceStatus`: the health record kept per
`(tenantId, serviceName, endpointUrl)` key (fields as used by the
`ServiceRegistry` health tracker). -/
structure ServiceStatus where
  tenantId : String
  serviceName : String
  endpointUrl : String
  isHealthy : Bool
  lastChecked : Nat
  consecutiveFails : Nat
  lastSuccessful : Option Nat
  lastFailure : Option Nat
  lastError : Option String
deriving DecidableEq, Repr

/-- Model of `domain.DefaultFailThreshold = 3`. -/
def DefaultFailThreshold : Int := 3

/-- The registry's health map `healthStatus`, keyed by
`fmt.Sprintf("%s:%s:%s", tenantID, serviceName, url)`. -/
def HealthMap : Type := String → Option ServiceStatus

/-- The composite key `tenantID:serviceName:url`. -/
def statusKey (tenantId serviceName url : String) : String :=
  tenantId ++ ":" ++ serviceName ++ ":" ++ url

/-- Model of `ServiceRegistry.UpdateHealthStatus`: report one externally observed
outcome for an endpoint.  `now` models `time.Now()`.  A missing record
is created with the reported outcome and `ConsecutiveFails = 0` and the
method returns; an existing record is updated, flipping `IsHealthy` to
`false` once `ConsecutiveFails` reaches the literal threshold `3`. -/
def UpdateHealthStatus (m : HealthMap) (now : Nat)
    (tenantId serviceName url : String) (healthy : Bool) : HealthMap :=
  let key := statusKey tenantId serviceName url
  match m key with
  | none =>
    let status : ServiceStatus :=
      { tenantId := tenantId, serviceName := serviceName, endpointUrl := url,
        isHealthy := healthy, lastChecked := now, consecutiveFails := 0,
        lastSuccessful := none, lastFailure := none, lastError := none }
    fun k => if k = key then some status else m k
  | some status =>
    let status := { status with lastChecked := now }
    let status :=
      if healthy then
        { status with isHealthy := true, consecutiveFails := 0,
                      lastSuccessful := some now }
      else
        let status :=
          { status with consecutiveFails := status.consecutiveFails + 1,
                        lastFailure := some now,
                        lastError := some "health check failed" }
        if status.consecutiveFails ≥ 3 then
          { status with isHealthy := false }
        else
          status
    fun k => if k = key then some status else m k

/-- Model of `ServiceRegistry.isEndpointHealthy`: a missing record is optimistic
(`true`); otherwise the stored `IsHealthy`. -/
def isEndpointHealthy (m : HealthMap) (tenantId serviceName url : String) : Bool :=
  match m (statusKey tenantId serviceName url) with
  | none => true
  | some status => status.isHealthy

/-- Model of `ServiceRegistry.GetHealthStatus`: a missing record is synthesized
as healthy with zero fails, stamped with `now`; otherwise a copy of the
stored record is returned. -/
def GetHealthStatus (m : HealthMap) (now : Nat)
    (tenantId serviceName url : String) : ServiceStatus :=
  match m (statusKey tenantId serviceName url) with
  | none =>
    { tenantId := tenantId, serviceName := serviceName, endpointUrl := url,
      isHealthy := true, lastChecked := now, consecutiveFails := 0,
      lastSuccessful := none, lastFailure := none, lastError := none }
  | some status => status

/-- Model of `domain.ServiceConfig.GetActiveEndpoints`: the primary endpoint when
active, then the active entries of the fallback chain, in declared
order. -/
def GetActiveEndpoints (sc : ServiceConfig) : List ServiceEndpoint :=
  (if sc.primaryEndpoint.isActive then [sc.primaryEndpoint] else []) ++
    sc.fallbackChain.filter (fun ep => ep.isActive)

/-- Inner loop of the nested-loop swap sort in
`domain.ServiceConfig.GetEndpointByPriority`: with the element at the
outer index `i` as current pivot `x`, scan the suffix; whenever an
element with strictly smaller `priority` is found, swap it with the
pivot position (the old pivot takes the scanned slot).  Returns the
final pivot and the suffix left behind. -/
def selectMin (x : ServiceEndpoint) :
    List ServiceEndpoint → ServiceEndpoint × List ServiceEndpoint
  | [] => (x, [])
  | y :: ys =>
    if y.priority < x.priority then
      let p := selectMin y ys
      (p.1, x :: p.2)
    else
      let p := selectMin x ys
      (p.1, y :: p.2)

/-- Outer loop of the nested-loop swap sort in
`domain.ServiceConfig.GetEndpointByPriority`. -/
def exchangeSort : List ServiceEndpoint → List ServiceEndpoint
  | [] => []
  | x :: xs => (selectMin x xs).1 :: exchangeSort (selectMin x xs).2
termination_by l => l.length
decreasing_by
  have hlen : ∀ (l : List ServiceEndpoint) (z : ServiceEndpoint),
      (selectMin z l).2.length = l.length := by
    intro l
    induction l with
    | nil => intro z; rfl
    | cons y ys ih =>
      intro z
      by_cases h : y.priority < z.priority <;>
        simp [selectMin, h, ih]
  simp only [hlen, List.length_cons]
  omega

/-- Model of `domain.ServiceConfig.GetEndpointByPriority`: the active endpoints
run through the in-place double-loop swap sort on `priority`. -/
def GetEndpointByPriority (sc : ServiceConfig) : List ServiceEndpoint :=
  exchangeSort (GetActiveEndpoints sc)

/-- The registry's `loadBalanceIdx` cursor map, keyed by
`fmt.Sprintf("%s:%s", tenantID, serviceName)`; a missing Go map entry
reads as `0`. -/
def LBState : Type := String → Nat

/-- The composite cursor key `tenantID:serviceName`. -/
def lbKey (tenantId serviceName : String) : String :=
  tenantId ++ ":" ++ serviceName

/-- Model of `ServiceRegistry.roundRobinSelect`: return
`endpoints[idx % len(endpoints)]` for the stored cursor `idx` and store
back `(idx+1) % len(endpoints)`; an empty candidate list yields
`("", nil)` and leaves the cursor untouched. -/
def roundRobinSelect (st : LBState) (tenantId serviceName : String)
    (endpoints : List ServiceEndpoint) :
    (String × Option ServiceEndpoint) × LBState :=
  match endpoints with
  | [] => (("", none), st)
  | e :: rest =>
    let l := e :: rest
    let key := lbKey tenantId serviceName
    let idx := st key
    let ep := l.getD (idx % l.length) e
    ((ep.url, some ep), fun k => if k = key then (idx + 1) % l.length else st k)

/-- Model of `ServiceRegistry.randomSelect`: return `endpoints[idx]` for the
uniformly drawn `idx = rand.Intn(len(endpoints))`, passed here as an
argument. -/
def randomSelect (endpoints : List ServiceEndpoint) (idx : Nat) :
    String × Option ServiceEndpoint :=
  match endpoints with
  | [] => ("", none)
  | e :: rest =>
    let ep := (e :: rest).getD idx e
    (ep.url, some ep)

/-- The accumulation walk of `ServiceRegistry.weightedSelect`: add each
weight to the running `cumulative` sum and return the first endpoint at
which the drawn `r` is strictly below it. -/
def weightedWalk (r : Int) :
    List ServiceEndpoint → Int → Option ServiceEndpoint
  | [], _ => none
  | ep :: rest, cumulative =>
    let c := cumulative + ep.weight
    if r < c then some ep else weightedWalk r rest c

/-- Model of `ServiceRegistry.weightedSelect`: when the total weight is zero,
fall back to `randomSelect` (with draw `idx`); otherwise walk the list
with the uniform draw `r = rand.Intn(totalWeight)`, the unreachable
final line returning `endpoints[0]`. -/
def weightedSelect (endpoints : List ServiceEndpoint) (idx : Nat) (r : Int) :
    String × Option ServiceEndpoint :=
  match endpoints with
  | [] => ("", none)
  | e :: rest =>
    let l := e :: rest
    let totalWeight := (l.map (fun ep => ep.weight)).sum
    if totalWeight = 0 then randomSelect l idx
    else
      match weightedWalk r l 0 with
      | some ep => (ep.url, some ep)
      | none => (e.url, some e)

/-- Model of `ServiceRegistry.selectEndpoint`: dispatch on
`config.LoadBalanceStrategy` over the active endpoints; with no active
endpoint, fall back to the primary URL even if inactive, else to
`defaultServiceUrl`.  `idx` and `r` are the potential random draws. -/
def selectEndpoint (st : LBState) (config : ServiceConfig)
    (idx : Nat) (r : Int) : (String × Option ServiceEndpoint) × LBState :=
  let endpoints := GetActiveEndpoints config
  match endpoints with
  | [] =>
    if config.primaryEndpoint.url ≠ "" then
      ((config.primaryEndpoint.url, some config.primaryEndpoint), st)
    else
      ((config.defaultServiceUrl, none), st)
  | e :: rest =>
    if config.loadBalanceStrategy = "round-robin" then
      roundRobinSelect st config.tenantId config.serviceName (e :: rest)
    else if config.loadBalanceStrategy = "random" then
      (randomSelect (e :: rest) idx, st)
    else if config.loadBalanceStrategy = "weighted" then
      (weightedSelect (e :: rest) idx r, st)
    else if config.loadBalanceStrategy = "least-conn" then
      roundRobinSelect st config.tenantId config.serviceName (e :: rest)
    else
      roundRobinSelect st config.tenantId config.serviceName (e :: rest)

/-- Model of `domain.FallbackChainResult` (fields as used by the registry):
the resolution trace.  The Go method additionally returns an `error`
value that is non-nil exactly when `success` is `false`. -/
structure FallbackChainResult where
  tenantId : String
  serviceName : String
  attemptedUrls : List String
  attemptedAt : Nat
  resolvedUrl : String
  usedEndpoint : Option ServiceEndpoint
  isDefault : Bool
  success : Bool
  error : Option String
deriving DecidableEq, Repr

/-- The fallback-chain loop of `ServiceRegistry.ResolveFallbackChain`:
return the first active healthy endpoint with the URLs attempted before
it, or `none` with every chain URL appended. -/
def resolveChain (m : HealthMap) (tenantId serviceName : String) :
    List ServiceEndpoint → List String → Option ServiceEndpoint × List String
  | [], attempted => (none, attempted)
  | ep :: rest, attempted =>
    if ep.isActive && isEndpointHealthy m tenantId serviceName ep.url then
      (some ep, attempted)
    else
      resolveChain m tenantId serviceName rest (attempted ++ [ep.url])

/-- Model of `ServiceRegistry.ResolveFallbackChain`: try the primary endpoint
(active and healthy), then the fallback chain in order, recording each
failed URL in `attemptedUrls`; last resort is `defaultServiceUrl` when
non-empty, else a failure trace.  `now` models `time.Now()`. -/
def ResolveFallbackChain (m : HealthMap) (now : Nat)
    (config : ServiceConfig) : FallbackChainResult :=
  let base : FallbackChainResult :=
    { tenantId := config.tenantId, serviceName := config.serviceName,
      attemptedUrls := [], attemptedAt := now, resolvedUrl := "",
      usedEndpoint := none, isDefault := false, success := false,
      error := none }
  if config.primaryEndpoint.isActive &&
      isEndpointHealthy m config.tenantId config.serviceName
        config.primaryEndpoint.url then
    { base with resolvedUrl := config.primaryEndpoint.url,
                usedEndpoint := some config.primaryEndpoint,
                isDefault := false, success := true }
  else
    match resolveChain m config.tenantId config.serviceName
        config.fallbackChain [config.primaryEndpoint.url] with
    | (some ep, attempted) =>
      { base with attemptedUrls := attempted, resolvedUrl := ep.url,
                  usedEndpoint := some ep, isDefault := false,
                  success := true }
    | (none, attempted) =>
      if config.defaultServiceUrl ≠ "" then
        { base with attemptedUrls := attempted,
                    resolvedUrl := config.defaultServiceUrl,
                    isDefault := true, success := true }
      else
        { base with attemptedUrls := attempted, success := false,
                    error := some "all endpoints in fallback chain are unhealthy" }

/-- Runner of `k` consecutive `roundRobinSelect` calls for a fixed key and fixed
candidate list, threading the cursor map; returns the outputs in call
order together with the final cursor map. -/
def rrCalls (tenantId serviceName : String) (l : List ServiceEndpoint) :
    Nat → LBState → List (String × Option ServiceEndpoint) × LBState
  | 0, st => ([], st)
  | k + 1, st =>
    let c := roundRobinSelect st tenantId serviceName l
    let rec' := rrCalls tenantId serviceName l k c.2
    (c.1 :: rec'.1, rec'.2)

/-- The output `roundRobinSelect` produces for slot `j` of the
candidate list `e :: rest`. -/
def rrOut (e : ServiceEndpoint) (rest : List ServiceEndpoint) (j : Nat) :
    String × Option ServiceEndpoint :=
  let ep := (e :: rest).getD j e
  (ep.url, some ep)

/-- A sequence of `selectEndpoint` calls on one configuration, each
with its pair of potential random draws, threading the cursor map. -/
def runSelect (config : ServiceConfig) :
    List (Nat × Int) → LBState →
      List (String × Option ServiceEndpoint) × LBState
  | [], st => ([], st)
  | d :: draws, st =>
    let c := selectEndpoint st config d.1 d.2
    let rec' := runSelect config draws c.2
    (c.1 :: rec'.1, rec'.2)

/-- The running weight total over the first `n` candidates. -/
def weightSumTo (l : List ServiceEndpoint) (n : Nat) : Int :=
  ((l.take n).map (fun ep => ep.weight)).sum

/-! Concrete fixtures used by the scenario theorems below. -/

/-- The empty health table (no record for any key). -/
def emptyHealth : HealthMap := fun _ => none

/-- A cursor map with every entry absent (reads as `0`). -/
def zeroLB : LBState := fun _ => 0

/-- A health-check policy with `failThreshold` configured to `5`. -/
def hc5 : HealthCheckConfig :=
  { enabled := true, path := "/health", method := "GET", interval := 30,
    timeout := 5, failThreshold := 5 }

/-- A default health-check policy (threshold left at the package
default `3`). -/
def hc3 : HealthCheckConfig :=
  { enabled := true, path := "/health", method := "GET", interval := 30,
    timeout := 5, failThreshold := 3 }

/-- An active endpoint at URL `"u"`. -/
def epU : ServiceEndpoint :=
  { url := "u", priority := 0, weight := 0, timeout := 0, headers := [],
    isActive := true }

/-- A config whose health-check policy asks for `failThreshold = 5`. -/
def cfg5 : ServiceConfig :=
  { tenantId := "t", serviceName := "s", primaryEndpoint := epU,
    fallbackChain := [], defaultServiceUrl := "", healthCheck := hc5,
    loadBalanceStrategy := "", isActive := true }

/-- A success report followed by four consecutive failure reports for
the key `("t", "s", "u")`. -/
def mFail4 : HealthMap :=
  UpdateHealthStatus
    (UpdateHealthStatus
      (UpdateHealthStatus
        (UpdateHealthStatus
          (UpdateHealthStatus emptyHealth 0 "t" "s" "u" true)
          1 "t" "s" "u" false)
        2 "t" "s" "u" false)
      3 "t" "s" "u" false)
    4 "t" "s" "u" false

/-- The record a first success report creates for `("t", "s", "u")` at
instant `0`. -/
def stCreated : ServiceStatus :=
  { tenantId := "t", serviceName := "s", endpointUrl := "u",
    isHealthy := true, lastChecked := 0, consecutiveFails := 0,
    lastSuccessful := none, lastFailure := none, lastError := none }

/-- One success report for `("t", "s", "u")` on the empty table. -/
def mCreated : HealthMap := UpdateHealthStatus emptyHealth 0 "t" "s" "u" true

/-- Inactive primary endpoint `A` of the fallback scenario. -/
def epA : ServiceEndpoint :=
  { url := "A", priority := 0, weight := 0, timeout := 0, headers := [],
    isActive := false }

/-- Active fallback endpoint `B` of the fallback scenario. -/
def epB : ServiceEndpoint :=
  { url := "B", priority := 1, weight := 0, timeout := 0, headers := [],
    isActive := true }

/-- The scenario config `{primary: A(inactive), fallback: [B(active)],
default: "D"}`. -/
def cfgABD : ServiceConfig :=
  { tenantId := "t", serviceName := "s", primaryEndpoint := epA,
    fallbackChain := [epB], defaultServiceUrl := "D", healthCheck := hc3,
    loadBalanceStrategy := "", isActive := true }

/-- Three consecutive failure reports for `B` under `("t", "s")`. -/
def mB3 : HealthMap :=
  UpdateHealthStatus
    (UpdateHealthStatus
      (UpdateHealthStatus emptyHealth 1 "t" "s" "B" false)
      2 "t" "s" "B" false)
    3 "t" "s" "B" false

/-- Active endpoint of priority `2`, declared first (the primary). -/
def ep2a : ServiceEndpoint :=
  { url := "a", priority := 2, weight := 0, timeout := 0, headers := [],
    isActive := true }

/-- Active endpoint of priority `2`, declared second. -/
def ep2b : ServiceEndpoint :=
  { url := "b", priority := 2, weight := 0, timeout := 0, headers := [],
    isActive := true }

/-- Active endpoint of priority `1`, declared last. -/
def ep1c : ServiceEndpoint :=
  { url := "c", priority := 1, weight := 0, timeout := 0, headers := [],
    isActive := true }

/-- A config whose active endpoints are `[ep2a, ep2b, ep1c]` in
declared order. -/
def cfgSort : ServiceConfig :=
  { tenantId := "t", serviceName := "s", primaryEndpoint := ep2a,
    fallbackChain := [ep2b, ep1c], defaultServiceUrl := "",
    healthCheck := hc3, loadBalanceStrategy := "", isActive := true }

/-- Weighted candidate of weight `2`. -/
def wA : ServiceEndpoint :=
  { url := "wa", priority := 0, weight := 2, timeout := 0, headers := [],
    isActive := true }

/-- Weighted candidate of weight `3`. -/
def wB : ServiceEndpoint :=
  { url := "wb", priority := 0, weight := 3, timeout := 0, headers := [],
    isActive := true }

/-- Zero-weight candidate. -/
def zA : ServiceEndpoint :=
  { url := "za", priority := 0, weight := 0, timeout := 0, headers := [],
    isActive := true }

/-- Zero-weight candidate. -/
def zB : ServiceEndpoint :=
  { url := "zb", priority := 0, weight := 0, timeout := 0, headers := [],
    isActive := true }

/-- Inactive primary endpoint `P` for the empty-chain scenarios. -/
def epP : ServiceEndpoint :=
  { url := "P", priority := 0, weight := 0, timeout := 0, headers := [],
    isActive := false }

/-- Empty-chain config with inactive primary and default URL `"D"`. -/
def cfgPD : ServiceConfig :=
  { tenantId := "t", serviceName := "s", primaryEndpoint := epP,
    fallbackChain := [], defaultServiceUrl := "D", healthCheck := hc3,
    loadBalanceStrategy := "", isActive := true }

/-- Empty-chain config with inactive primary and no default URL. -/
def cfgPempty : ServiceConfig :=
  { tenantId := "t", serviceName := "s", primaryEndpoint := epP,
    fallbackChain := [], defaultServiceUrl := "", healthCheck := hc3,
    loadBalanceStrategy := "", isActive := true }

/-! Health-tracker theorems. -/

/-- C8: for a key with no stored health record, `isEndpointHealthy`
returns `true` and `GetHealthStatus` returns a synthesized record with
`isHealthy = true` and `consecutiveFails = 0` (never a missing result;
both operations are total). -/
theorem health_absent_defaults (m : HealthMap) (now : Nat)
    (tenantId serviceName url : String)
    (h : m (statusKey tenantId serviceName url) = none) :
    isEndpointHealthy m tenantId serviceName url = true ∧
    GetHealthStatus m now tenantId serviceName url =
      { tenantId := tenantId, serviceName := serviceName,
        endpointUrl := url, isHealthy := true, lastChecked := now,
        consecutiveFails := 0, lastSuccessful := none, lastFailure := none,
        lastError := none } := by
  simp [isEndpointHealthy, GetHealthStatus, h]

/-- Witness for `health_absent_defaults` at the empty table. -/
theorem health_absent_defaults_witness :
    isEndpointHealthy emptyHealth "t" "s" "u" = true ∧
    GetHealthStatus emptyHealth 7 "t" "s" "u" =
      { tenantId := "t", serviceName := "s", endpointUrl := "u",
        isHealthy := true, lastChecked := 7, consecutiveFails := 0,
        lastSuccessful := none, lastFailure := none, lastError := none } :=
  health_absent_defaults emptyHealth 7 "t" "s" "u" rfl

/-- C9: a single success report, over any prior table state, leaves the
record for its key with `isHealthy = true` and `consecutiveFails = 0`. -/
theorem health_success_resets (m : HealthMap) (now : Nat)
    (tenantId serviceName url : String) :
    ∃ st : ServiceStatus,
      UpdateHealthStatus m now tenantId serviceName url true
          (statusKey tenantId serviceName url) = some st ∧
      st.isHealthy = true ∧ st.consecutiveFails = 0 := by
  cases h : m (statusKey tenantId serviceName url) with
  | none =>
    refine ⟨{ tenantId := tenantId, serviceName := serviceName,
              endpointUrl := url, isHealthy := true, lastChecked := now,
              consecutiveFails := 0, lastSuccessful := none,
              lastFailure := none, lastError := none }, ?_, rfl, rfl⟩
    simp [UpdateHealthStatus, h]
  | some st =>
    refine ⟨{ st with lastChecked := now, isHealthy := true, consecutiveFails := 0, lastSuccessful := some now }, ?_, rfl, rfl⟩
    simp [UpdateHealthStatus, h]

/-- C10: the first report for a never-seen key creates the record with
`isHealthy` equal to the reported outcome and `consecutiveFails = 0`,
stamps only `lastChecked`, and applies no threshold logic and no
`lastSuccessful`/`lastFailure` stamp. -/
theorem health_first_report_creates (m : HealthMap) (now : Nat)
    (tenantId serviceName url : String) (healthy : Bool)
    (h : m (statusKey tenantId serviceName url) = none) :
    UpdateHealthStatus m now tenantId serviceName url healthy
        (statusKey tenantId serviceName url) =
      some { tenantId := tenantId, serviceName := serviceName,
             endpointUrl := url, isHealthy := healthy, lastChecked := now,
             consecutiveFails := 0, lastSuccessful := none,
             lastFailure := none, lastError := none } := by
  simp [UpdateHealthStatus, h]

/-- Witness for `health_first_report_creates`: one failure report on a
never-seen key yields `isHealthy = false` with `consecutiveFails = 0`. -/
theorem health_first_report_creates_witness :
    UpdateHealthStatus emptyHealth 5 "t" "s" "u" false
        (statusKey "t" "s" "u") =
      some { tenantId := "t", serviceName := "s", endpointUrl := "u",
             isHealthy := false, lastChecked := 5, consecutiveFails := 0,
             lastSuccessful := none, lastFailure := none,
             lastError := none } :=
  health_first_report_creates emptyHealth 5 "t" "s" "u" false rfl

/-- C1 (amended): the unhealthy flip uses the fixed literal threshold
`3`, not the per-service `HealthCheckConfig.failThreshold`, and the
hysteresis counts over an existing record: starting from a stored
record with `isHealthy = true` and `consecutiveFails = 0`, the first
two consecutive failure reports leave `isHealthy` true and the third
flips it to false. -/
theorem health_fail_flip_at_three (m : HealthMap)
    (tenantId serviceName url : String) (n1 n2 n3 : Nat)
    (st : ServiceStatus)
    (hm : m (statusKey tenantId serviceName url) = some st)
    (hHealthy : st.isHealthy = true)
    (hZero : st.consecutiveFails = 0) :
    isEndpointHealthy
        (UpdateHealthStatus m n1 tenantId serviceName url false)
        tenantId serviceName url = true ∧
    isEndpointHealthy
        (UpdateHealthStatus
          (UpdateHealthStatus m n1 tenantId serviceName url false)
          n2 tenantId serviceName url false)
        tenantId serviceName url = true ∧
    isEndpointHealthy
        (UpdateHealthStatus
          (UpdateHealthStatus
            (UpdateHealthStatus m n1 tenantId serviceName url false)
            n2 tenantId serviceName url false)
          n3 tenantId serviceName url false)
        tenantId serviceName url = false := by
  simp [UpdateHealthStatus, isEndpointHealthy, hm, hZero, hHealthy]

/-- Witness for `health_fail_flip_at_three`: the record created by one
success report, then three failures. -/
theorem health_fail_flip_at_three_witness :
    isEndpointHealthy
        (UpdateHealthStatus mCreated 1 "t" "s" "u" false) "t" "s" "u" = true ∧
    isEndpointHealthy
        (UpdateHealthStatus
          (UpdateHealthStatus mCreated 1 "t" "s" "u" false)
          2 "t" "s" "u" false) "t" "s" "u" = true ∧
    isEndpointHealthy
        (UpdateHealthStatus
          (UpdateHealthStatus
            (UpdateHealthStatus mCreated 1 "t" "s" "u" false)
            2 "t" "s" "u" false)
          3 "t" "s" "u" false) "t" "s" "u" = false :=
  health_fail_flip_at_three mCreated "t" "s" "u" 1 2 3 stCreated
    (by decide) (by decide) (by decide)

/-- C1 counterexample: with `failThreshold` configured to `5`, a record
created healthy and then reported failed `failThreshold - 1 = 4`
consecutive times is already unhealthy — the configured threshold is
ignored (the code flips at the literal `3`). -/
theorem health_fail_threshold_config_ignored :
    cfg5.healthCheck.failThreshold = 5 ∧
    isEndpointHealthy mFail4 cfg5.tenantId cfg5.serviceName
        cfg5.primaryEndpoint.url = false := by
  decide

/-! Fallback-chain resolution theorems. -/

/-- C2 counterexample: in the scenario `{primary: A(inactive),
fallback: [B(active)], default: "D"}` with `B` reported unhealthy three
times, the resolution trace records the inactive primary as attempted:
`attemptedUrls = ["A", "B"]`, not `["B"]`. -/
theorem resolve_scenario_attempted_has_primary :
    (ResolveFallbackChain mB3 9 cfgABD).attemptedUrls = ["A", "B"] ∧
    (ResolveFallbackChain mB3 9 cfgABD).attemptedUrls ≠ ["B"] := by
  decide

/-- C2 (amended): in the scenario `{primary: A(inactive),
fallback: [B(active)], default: "D"}`, resolution with no health
records returns `B`; after three failure reports on `B` it falls back
to `"D"` with `IsDefault = true` and `attemptedUrls = ["A", "B"]` (the
inactive primary is skipped but still recorded as attempted). -/
theorem resolve_scenario_ABD :
    (ResolveFallbackChain emptyHealth 0 cfgABD).resolvedUrl = "B" ∧
    (ResolveFallbackChain emptyHealth 0 cfgABD).usedEndpoint = some epB ∧
    (ResolveFallbackChain emptyHealth 0 cfgABD).isDefault = false ∧
    (ResolveFallbackChain emptyHealth 0 cfgABD).success = true ∧
    (ResolveFallbackChain mB3 9 cfgABD).resolvedUrl = "D" ∧
    (ResolveFallbackChain mB3 9 cfgABD).isDefault = true ∧
    (ResolveFallbackChain mB3 9 cfgABD).success = true ∧
    (ResolveFallbackChain mB3 9 cfgABD).attemptedUrls = ["A", "B"] := by
  decide

/-- C7 (amended): for a config with empty `fallbackChain`, resolution
returns the primary endpoint iff it is active and currently healthy;
otherwise it falls through directly to `defaultServiceUrl` with
`IsDefault = true` when that URL is non-empty, and fails (no default
result) when `defaultServiceUrl` is empty. -/
theorem resolve_empty_chain (m : HealthMap) (now : Nat)
    (config : ServiceConfig) (h : config.fallbackChain = []) :
    ((ResolveFallbackChain m now config).usedEndpoint =
        some config.primaryEndpoint ↔
      (config.primaryEndpoint.isActive = true ∧
        isEndpointHealthy m config.tenantId config.serviceName
          config.primaryEndpoint.url = true)) ∧
    (¬(config.primaryEndpoint.isActive = true ∧
        isEndpointHealthy m config.tenantId config.serviceName
          config.primaryEndpoint.url = true) →
      config.defaultServiceUrl ≠ "" →
      (ResolveFallbackChain m now config).resolvedUrl =
          config.defaultServiceUrl ∧
      (ResolveFallbackChain m now config).isDefault = true ∧
      (ResolveFallbackChain m now config).success = true) ∧
    (¬(config.primaryEndpoint.isActive = true ∧
        isEndpointHealthy m config.tenantId config.serviceName
          config.primaryEndpoint.url = true) →
      config.defaultServiceUrl = "" →
      (ResolveFallbackChain m now config).success = false ∧
      (ResolveFallbackChain m now config).isDefault = false) := by
  by_cases hp : config.primaryEndpoint.isActive = true ∧
      isEndpointHealthy m config.tenantId config.serviceName
        config.primaryEndpoint.url = true
  · have hc : (config.primaryEndpoint.isActive &&
        isEndpointHealthy m config.tenantId config.serviceName
          config.primaryEndpoint.url) = true := by
      rw [Bool.and_eq_true]
      exact hp
    refine ⟨?_, fun hx => absurd hp hx, fun hx => absurd hp hx⟩
    simp [ResolveFallbackChain, hc, hp.1, hp.2]
  · have hc : (config.primaryEndpoint.isActive &&
        isEndpointHealthy m config.tenantId config.serviceName
          config.primaryEndpoint.url) = false := by
      rcases Bool.eq_false_or_eq_true config.primaryEndpoint.isActive with
        ha | ha
      · rcases Bool.eq_false_or_eq_true (isEndpointHealthy m config.tenantId
          config.serviceName config.primaryEndpoint.url) with hb | hb
        · exact absurd ⟨ha, hb⟩ hp
        · simp [ha, hb]
      · simp [ha]
    by_cases hd : config.defaultServiceUrl = ""
    · refine ⟨?_, fun _ hd2 => absurd hd hd2, fun _ _ => ?_⟩
      · simpa [ResolveFallbackChain, hc, h, resolveChain, hd] using hp
      · simp [ResolveFallbackChain, hc, h, resolveChain, hd]
    · refine ⟨?_, fun _ _ => ?_, fun _ hd2 => absurd hd2 hd⟩
      · simpa [ResolveFallbackChain, hc, h, resolveChain, hd] using hp
      · simp [ResolveFallbackChain, hc, h, resolveChain, hd]

/-- Witness for `resolve_empty_chain`: inactive primary and default
`"D"` fall through to the default. -/
theorem resolve_empty_chain_witness :
    (ResolveFallbackChain emptyHealth 0 cfgPD).resolvedUrl =
        cfgPD.defaultServiceUrl ∧
    (ResolveFallbackChain emptyHealth 0 cfgPD).isDefault = true ∧
    (ResolveFallbackChain emptyHealth 0 cfgPD).success = true :=
  (resolve_empty_chain emptyHealth 0 cfgPD rfl).2.1 (by decide) (by decide)

/-- C7 counterexample: with empty chain, inactive primary and empty
`defaultServiceUrl`, resolution does not return a default result — it
fails with `IsDefault = false` and an error trace. -/
theorem resolve_empty_chain_no_default_fails :
    cfgPempty.fallbackChain = [] ∧
    cfgPempty.primaryEndpoint.isActive = false ∧
    (ResolveFallbackChain emptyHealth 0 cfgPempty).isDefault = false ∧
    (ResolveFallbackChain emptyHealth 0 cfgPempty).success = false ∧
    (ResolveFallbackChain emptyHealth 0 cfgPempty).error =
      some "all endpoints in fallback chain are unhealthy" := by
  decide

/-! Priority-sort theorems. -/

theorem selectMin_length (x : ServiceEndpoint) (l : List ServiceEndpoint) :
    (selectMin x l).2.length = l.length := by
  induction l generalizing x with
  | nil => rfl
  | cons y ys ih =>
    by_cases h : y.priority < x.priority <;>
      simp [selectMin, h, ih]

theorem selectMin_perm (x : ServiceEndpoint) (l : List ServiceEndpoint) :
    List.Perm ((selectMin x l).1 :: (selectMin x l).2) (x :: l) := by
  induction l generalizing x with
  | nil => simp [selectMin]
  | cons y ys ih =>
    by_cases h : y.priority < x.priority
    · simp only [selectMin, if_pos h]
      exact (List.Perm.swap x (selectMin y ys).1 (selectMin y ys).2).trans
        ((ih y).cons x)
    · simp only [selectMin, if_neg h]
      exact ((List.Perm.swap y (selectMin x ys).1 (selectMin x ys).2).trans
        ((ih x).cons y)).trans (List.Perm.swap x y ys)

theorem selectMin_min (x : ServiceEndpoint) (l : List ServiceEndpoint) :
    (selectMin x l).1.priority ≤ x.priority ∧
    ∀ b ∈ (selectMin x l).2, (selectMin x l).1.priority ≤ b.priority := by
  induction l generalizing x with
  | nil => exact ⟨le_refl _, by simp [selectMin]⟩
  | cons y ys ih =>
    by_cases h : y.priority < x.priority
    · simp only [selectMin, if_pos h]
      obtain ⟨h1, h2⟩ := ih y
      refine ⟨le_trans h1 (le_of_lt h), ?_⟩
      intro b hb
      rcases List.mem_cons.mp hb with rfl | hb
      · exact le_trans h1 (le_of_lt h)
      · exact h2 b hb
    · simp only [selectMin, if_neg h]
      obtain ⟨h1, h2⟩ := ih x
      push_neg at h
      refine ⟨h1, ?_⟩
      intro b hb
      rcases List.mem_cons.mp hb with rfl | hb
      · exact le_trans h1 h
      · exact h2 b hb

theorem exchangeSort_perm_aux :
    ∀ (n : Nat) (l : List ServiceEndpoint), l.length ≤ n →
      List.Perm (exchangeSort l) l := by
  intro n
  induction n with
  | zero =>
    intro l hl
    rw [List.length_eq_zero.mp (Nat.le_zero.mp hl)]
    simp [exchangeSort]
  | succ n ih =>
    intro l hl
    match l with
    | [] => simp [exchangeSort]
    | x :: xs =>
      rw [exchangeSort]
      have hlen : (selectMin x xs).2.length ≤ n := by
        rw [selectMin_length]
        simpa using Nat.lt_succ_iff.mp (Nat.lt_of_lt_of_le
          (by simp [Nat.lt_succ_iff]) hl)
      exact ((ih _ hlen).cons (selectMin x xs).1).trans (selectMin_perm x xs)

theorem exchangeSort_perm (l : List ServiceEndpoint) :
    List.Perm (exchangeSort l) l :=
  exchangeSort_perm_aux l.length l (le_refl _)

theorem exchangeSort_sorted_aux :
    ∀ (n : Nat) (l : List ServiceEndpoint), l.length ≤ n →
      (exchangeSort l).Pairwise (fun a b => a.priority ≤ b.priority) := by
  intro n
  induction n with
  | zero =>
    intro l hl
    rw [List.length_eq_zero.mp (Nat.le_zero.mp hl)]
    simp [exchangeSort]
  | succ n ih =>
    intro l hl
    match l with
    | [] => simp [exchangeSort]
    | x :: xs =>
      rw [exchangeSort]
      have hlen : (selectMin x xs).2.length ≤ n := by
        rw [selectMin_length]
        simpa using Nat.lt_succ_iff.mp (Nat.lt_of_lt_of_le
          (by simp [Nat.lt_succ_iff]) hl)
      refine List.Pairwise.cons ?_ (ih _ hlen)
      intro b hb
      exact (selectMin_min x xs).2 b
        ((exchangeSort_perm _).mem_iff.mp hb)

theorem exchangeSort_sorted (l : List ServiceEndpoint) :
    (exchangeSort l).Pairwise (fun a b => a.priority ≤ b.priority) :=
  exchangeSort_sorted_aux l.length l (le_refl _)

/-- C3 (amended): `GetEndpointByPriority` returns the active endpoints
sorted ascending by `priority` — a permutation of
`GetActiveEndpoints` — but the nested-loop swap sort is not stable:
endpoints of equal priority may come out in a different relative order
than declared. -/
theorem getEndpointByPriority_sorted_perm (sc : ServiceConfig) :
    (GetEndpointByPriority sc).Pairwise
        (fun a b => a.priority ≤ b.priority) ∧
    List.Perm (GetEndpointByPriority sc) (GetActiveEndpoints sc) :=
  ⟨exchangeSort_sorted _, exchangeSort_perm _⟩

/-- C3 counterexample: for active endpoints `[ep2a, ep2b, ep1c]`
(priorities `2, 2, 1`), the sort returns `[ep1c, ep2b, ep2a]` — the two
equal-priority endpoints swap their relative order, so the sort is not
stable. -/
theorem getEndpointByPriority_not_stable :
    GetActiveEndpoints cfgSort = [ep2a, ep2b, ep1c] ∧
    ep2a.priority = ep2b.priority ∧
    ep2a ≠ ep2b ∧
    GetEndpointByPriority cfgSort = [ep1c, ep2b, ep2a] ∧
    GetEndpointByPriority cfgSort ≠ [ep1c, ep2a, ep2b] := by
  have hact : GetActiveEndpoints cfgSort = [ep2a, ep2b, ep1c] := by decide
  have hsort : GetEndpointByPriority cfgSort = [ep1c, ep2b, ep2a] := by
    rw [GetEndpointByPriority, hact]
    simp [exchangeSort, selectMin, ep2a, ep2b, ep1c]
  refine ⟨hact, by decide, by decide, hsort, ?_⟩
  rw [hsort]
  decide

/-! Round-robin theorems. -/

theorem roundRobinSelect_eq (st : LBState) (t s : String)
    (e : ServiceEndpoint) (rest : List ServiceEndpoint) :
    roundRobinSelect st t s (e :: rest) =
      (rrOut e rest (st (lbKey t s) % (e :: rest).length),
        fun k => if k = lbKey t s then
          (st (lbKey t s) + 1) % (e :: rest).length else st k) := rfl

theorem rrCalls_formula (t s : String) (e : ServiceEndpoint)
    (rest : List ServiceEndpoint) :
    ∀ (n : Nat) (st : LBState),
      (rrCalls t s (e :: rest) n st).1 =
        (List.range n).map
          (fun i => rrOut e rest
            ((st (lbKey t s) + i) % (e :: rest).length)) := by
  intro n
  induction n with
  | zero => intro st; simp [rrCalls]
  | succ k ih =>
    intro st
    simp only [rrCalls, roundRobinSelect_eq]
    rw [ih]
    rw [List.range_succ_eq_map]
    simp only [List.map_cons, List.map_map, Function.comp, if_pos,
      Nat.add_zero]
    refine congrArg₂ List.cons rfl ?_
    refine List.map_congr_left (fun i _ => ?_)
    have h1 : ((st (lbKey t s) + 1) % (e :: rest).length + i) %
          (e :: rest).length =
        (st (lbKey t s) + (i + 1)) % (e :: rest).length := by
      rw [Nat.mod_add_mod]
      exact congrArg (fun z => z % (e :: rest).length) (by omega)
    rw [h1]
    rfl

theorem range_map_getD (d : ServiceEndpoint)
    (f : ServiceEndpoint → String × Option ServiceEndpoint) :
    ∀ l : List ServiceEndpoint,
      (List.range l.length).map (fun j => f (l.getD j d)) = l.map f := by
  intro l
  induction l with
  | nil => rfl
  | cons x xs ih =>
    rw [List.length_cons, List.range_succ_eq_map]
    simp only [List.map_cons, List.map_map, Function.comp,
      List.getD_cons_zero, List.getD_cons_succ]
    exact congrArg₂ List.cons rfl ih

theorem range_add_mod_perm (c N : Nat) (hN : 0 < N) :
    List.Perm ((List.range N).map (fun i => (c + i) % N))
      (List.range N) := by
  have hnodup : ((List.range N).map (fun i => (c + i) % N)).Nodup := by
    refine List.Nodup.map_on ?_ (List.nodup_range N)
    intro i hi j hj hij
    rw [List.mem_range] at hi hj
    have h2 : i % N = j % N := Nat.ModEq.add_left_cancel' c hij
    rwa [Nat.mod_eq_of_lt hi, Nat.mod_eq_of_lt hj] at h2
  have hsub : ((List.range N).map (fun i => (c + i) % N)) ⊆
      List.range N := by
    intro a ha
    rw [List.mem_map] at ha
    obtain ⟨i, _, rfl⟩ := ha
    rw [List.mem_range]
    exact Nat.mod_lt _ hN
  exact (List.subperm_of_subset hnodup hsub).perm_of_length_le (by simp)

/-- C4: round-robin cycle law.  For a fixed non-empty candidate list
and key, the `i`-th consecutive call returns the candidate at index
`(cursor + i) mod N` (so each call returns `candidates[cursor % N]` and
advances the cursor modulo `N`), any `N` consecutive calls return the
`N` candidate outputs exactly once each, and the schedule is periodic
with period `N`. -/
theorem roundRobin_cycle (t s : String) (e : ServiceEndpoint)
    (rest : List ServiceEndpoint) (st : LBState) :
    (∀ n, (rrCalls t s (e :: rest) n st).1 =
        (List.range n).map
          (fun i => rrOut e rest
            ((st (lbKey t s) + i) % (e :: rest).length))) ∧
    List.Perm ((rrCalls t s (e :: rest) (e :: rest).length st).1)
        ((e :: rest).map (fun ep => (ep.url, some ep))) ∧
    (roundRobinSelect st t s (e :: rest)).1 =
        rrOut e rest (st (lbKey t s) % (e :: rest).length) ∧
    (roundRobinSelect st t s (e :: rest)).2 (lbKey t s) =
        (st (lbKey t s) + 1) % (e :: rest).length ∧
    ∀ i, rrOut e rest
          ((st (lbKey t s) + (i + (e :: rest).length)) %
            (e :: rest).length) =
        rrOut e rest ((st (lbKey t s) + i) % (e :: rest).length) := by
  refine ⟨fun n => rrCalls_formula t s e rest n st, ?_, rfl, ?_, ?_⟩
  · rw [rrCalls_formula t s e rest (e :: rest).length st]
    have h1 : (List.range (e :: rest).length).map
          (fun i => rrOut e rest
            ((st (lbKey t s) + i) % (e :: rest).length)) =
        ((List.range (e :: rest).length).map
          (fun i => (st (lbKey t s) + i) % (e :: rest).length)).map
          (fun j => rrOut e rest j) := by
      rw [List.map_map]
      rfl
    rw [h1]
    refine ((range_add_mod_perm (st (lbKey t s)) (e :: rest).length
      (by simp)).map (fun j => rrOut e rest j)).trans ?_
    have h3 : (List.range (e :: rest).length).map
          (fun j => rrOut e rest j) =
        (e :: rest).map (fun ep => (ep.url, some ep)) :=
      range_map_getD e (fun ep => (ep.url, some ep)) (e :: rest)
    rw [h3]
  · rw [roundRobinSelect_eq]
    simp
  · intro i
    have h4 : st (lbKey t s) + (i + (e :: rest).length) =
        st (lbKey t s) + i + (e :: rest).length := by omega
    rw [h4, Nat.add_mod_right]

/-! Weighted-selection theorems. -/

theorem weightSumTo_cons (ep : ServiceEndpoint)
    (rest : List ServiceEndpoint) (n : Nat) :
    weightSumTo (ep :: rest) (n + 1) = ep.weight + weightSumTo rest n := by
  simp [weightSumTo]

theorem weightedWalk_first (r : Int) :
    ∀ (l : List ServiceEndpoint) (acc : Int), l ≠ [] →
      r < acc + (l.map (fun ep => ep.weight)).sum →
      ∃ k ep, l[k]? = some ep ∧ weightedWalk r l acc = some ep ∧
        r < acc + weightSumTo l (k + 1) ∧
        ∀ j < k, acc + weightSumTo l (j + 1) ≤ r := by
  intro l
  induction l with
  | nil => intro acc h; exact absurd rfl h
  | cons ep rest ih =>
    intro acc _ hr
    by_cases h : r < acc + ep.weight
    · refine ⟨0, ep, by simp, ?_, ?_, ?_⟩
      · simp [weightedWalk, h]
      · rw [weightSumTo_cons]
        have h0 : weightSumTo rest 0 = 0 := rfl
        omega
      · intro j hj
        exact absurd hj (Nat.not_lt_zero j)
    · push_neg at h
      match rest with
      | [] =>
        exfalso
        simp at hr
        omega
      | e2 :: rest2 =>
        have hr2 : r < (acc + ep.weight) +
            ((e2 :: rest2).map (fun x => x.weight)).sum := by
          simp only [List.map_cons, List.sum_cons] at hr ⊢
          omega
        obtain ⟨k, ep', hget, hwalk, hlt, hmin⟩ :=
          ih (acc + ep.weight) (by simp) hr2
        refine ⟨k + 1, ep', ?_, ?_, ?_, ?_⟩
        · simpa using hget
        · simp only [weightedWalk]
          rw [if_neg (not_lt.mpr h)]
          exact hwalk
        · rw [weightSumTo_cons]
          omega
        · intro j hj
          match j with
          | 0 =>
            rw [weightSumTo_cons]
            have h0 : weightSumTo (e2 :: rest2) 0 = 0 := rfl
            omega
          | j + 1 =>
            have h5 := hmin j (by omega)
            rw [weightSumTo_cons]
            omega

/-- C5: weighted selection.  With total weight zero it degrades to the
`random` strategy (same draw, same result); the `random` strategy with
an in-range draw always returns the drawn candidate; with a draw
`r ∈ [0, totalWeight)` it returns the first candidate at which the
running cumulative weight exceeds `r` (ties broken by list order), and
in every case the result is a candidate of the list. -/
theorem weightedSelect_spec (e : ServiceEndpoint)
    (rest : List ServiceEndpoint) (idx : Nat) (r : Int) :
    (((e :: rest).map (fun ep => ep.weight)).sum = 0 →
      weightedSelect (e :: rest) idx r = randomSelect (e :: rest) idx) ∧
    (idx < (e :: rest).length →
      ∃ ep, (e :: rest)[idx]? = some ep ∧
        randomSelect (e :: rest) idx = (ep.url, some ep) ∧
        ep ∈ e :: rest) ∧
    (0 ≤ r → r < ((e :: rest).map (fun ep => ep.weight)).sum →
      ∃ k ep, (e :: rest)[k]? = some ep ∧
        weightedSelect (e :: rest) idx r = (ep.url, some ep) ∧
        r < weightSumTo (e :: rest) (k + 1) ∧
        (∀ j < k, weightSumTo (e :: rest) (j + 1) ≤ r) ∧
        ep ∈ e :: rest) := by
  refine ⟨?_, ?_, ?_⟩
  · intro h0
    simp only [weightedSelect]
    rw [if_pos h0]
  · intro hidx
    refine ⟨(e :: rest)[idx], List.getElem?_eq_getElem hidx, ?_,
      List.getElem_mem hidx⟩
    simp [randomSelect, List.getD_eq_getElem?_getD,
      List.getElem?_eq_getElem hidx]
  · intro hr0 hrlt
    have hne : ((e :: rest).map (fun ep => ep.weight)).sum ≠ 0 := by
      omega
    obtain ⟨k, ep, hget, hwalk, hlt, hmin⟩ :=
      weightedWalk_first r (e :: rest) 0 (by simp) (by simpa using hrlt)
    refine ⟨k, ep, hget, ?_, by simpa using hlt,
      fun j hj => by simpa using hmin j hj, ?_⟩
    · simp only [weightedSelect]
      rw [if_neg hne, hwalk]
    · exact List.getElem?_mem hget

/-- Witness for `weightedSelect_spec`: zero weights `[0, 0]` degrade to
`random`; weights `[2, 3]` with draw `2` select the second candidate. -/
theorem weightedSelect_spec_witness :
    (weightedSelect (zA :: [zB]) 1 0 = randomSelect (zA :: [zB]) 1) ∧
    (∃ ep, (zA :: [zB])[1]? = some ep ∧
      randomSelect (zA :: [zB]) 1 = (ep.url, some ep) ∧
      ep ∈ zA :: [zB]) ∧
    (∃ k ep, (wA :: [wB])[k]? = some ep ∧
      weightedSelect (wA :: [wB]) 0 2 = (ep.url, some ep) ∧
      (2 : Int) < weightSumTo (wA :: [wB]) (k + 1) ∧
      (∀ j < k, weightSumTo (wA :: [wB]) (j + 1) ≤ (2 : Int)) ∧
      ep ∈ wA :: [wB]) :=
  ⟨(weightedSelect_spec zA [zB] 1 0).1 (by decide),
    (weightedSelect_spec zA [zB] 1 0).2.1 (by decide),
    (weightedSelect_spec wA [wB] 0 2).2.2 (by decide) (by decide)⟩

/-! Strategy-dispatch theorems. -/

theorem getActiveEndpoints_set_strategy (config : ServiceConfig)
    (strat : String) :
    GetActiveEndpoints { config with loadBalanceStrategy := strat } =
      GetActiveEndpoints config := rfl

/-- C6: with `loadBalanceStrategy` set to an unknown string
(`"bogus"`), unset (`""`), or `"least-conn"`, any sequence of
`selectEndpoint` calls produces exactly the results and cursor-map
evolution of the `"round-robin"` strategy. -/
theorem selectEndpoint_defaults_to_roundRobin (config : ServiceConfig)
    (strat : String)
    (h : strat = "bogus" ∨ strat = "" ∨ strat = "least-conn")
    (draws : List (Nat × Int)) (st : LBState) :
    runSelect { config with loadBalanceStrategy := strat } draws st =
      runSelect { config with loadBalanceStrategy := "round-robin" }
        draws st := by
  have hstep : ∀ (st2 : LBState) (idx : Nat) (r : Int),
      selectEndpoint st2 { config with loadBalanceStrategy := strat }
          idx r =
        selectEndpoint st2
          { config with loadBalanceStrategy := "round-robin" } idx r := by
    intro st2 idx r
    cases hX : GetActiveEndpoints config with
    | nil =>
      rcases h with rfl | rfl | rfl <;>
        simp [selectEndpoint, getActiveEndpoints_set_strategy, hX]
    | cons e rest =>
      rcases h with rfl | rfl | rfl <;>
        simp [selectEndpoint, getActiveEndpoints_set_strategy, hX]
  induction draws generalizing st with
  | nil => rfl
  | cons d ds ih =>
    simp only [runSelect, hstep, ih]

/-- Witness for `selectEndpoint_defaults_to_roundRobin` on the
`{A(inactive), [B(active)]}` config with two calls. -/
theorem selectEndpoint_defaults_to_roundRobin_witness :
    runSelect { cfgABD with loadBalanceStrategy := "bogus" }
        [(0, 0), (1, 1)] zeroLB =
      runSelect { cfgABD with loadBalanceStrategy := "round-robin" }
        [(0, 0), (1, 1)] zeroLB :=
  selectEndpoint_defaults_to_roundRobin cfgABD "bogus" (Or.inl rfl)
    [(0, 0), (1, 1)] zeroLB
